import Mathlib

/-!
Verification of the field-visibility-consistency lint
(clippy_lints/src/partial_pub_fields.rs).

The checker inspects one item at a time.  For a struct declaration it reads
the visibility of the first field as the baseline and scans the remaining
fields in declaration order; at the first field whose binary public /
not-public classification disagrees with the baseline it emits a single
diagnostic anchored at that field's visibility span and returns.

The embedding below translates the AST views the checker consumes and the
body of check_item; the host-side helpers that are not part of the checked
source file (the visibility classification, the field accessor of the
variant data, and the diagnostic constructor) are modelled from the spec and
marked as such in their doc comments.
-/

/-- Modelled from the spec: the host syntax tree's visibility classification
of a field (rustc_ast VisibilityKind, not under src/).  A visibility is
either fully public, restricted to a sub-path (crate- or module-restricted),
or inherited (the default, private). -/
inductive VisibilityKind where
  | public
  | restricted
  | inherited
deriving DecidableEq, Repr

/-- Modelled from the spec: the binary classification used by the rule
(VisibilityKind::is_pub, not under src/).  The spec states the rule "treats
visibility as a binary public vs not public classification" and that "the
original behavior treats anything other than fully public as equivalent to
private", so only the fully public kind counts as public. -/
def VisibilityKind.is_pub : VisibilityKind → Bool
  | .public => true
  | .restricted => false
  | .inherited => false

/-- A visibility as attached to a field: its classification together with
the source span where the visibility is written or implied.  Spans are
abstracted as natural numbers. -/
structure Visibility where
  kind : VisibilityKind
  span : Nat
deriving DecidableEq, Repr

/-- One field of a record declaration; the checker only reads its
visibility. -/
structure FieldDef where
  vis : Visibility
deriving DecidableEq, Repr

/-- The shape of a struct body: named fields, positional (tuple-like)
fields, or a unit struct with no fields (rustc_ast VariantData). -/
inductive VariantData where
  | structData (fields : List FieldDef)
  | tupleData (fields : List FieldDef)
  | unitData
deriving DecidableEq, Repr

/-- Modelled from the spec: the field accessor of the struct body
(VariantData::fields, not under src/).  The host supplies "that
declaration's field list in declaration order"; both named-field and
tuple-like bodies supply their fields, a unit body supplies none. -/
def VariantData.fields : VariantData → List FieldDef
  | .structData fs => fs
  | .tupleData fs => fs
  | .unitData => []

/-- The kinds of items the visitor can hand to the checker.  Only the
struct kind carries the data the checker looks at; the other kinds stand
for every non-struct item (enum, union, trait, function, and the rest). -/
inductive ItemKind where
  | struct (data : VariantData)
  | enum
  | union (data : VariantData)
  | traitDecl
  | fn
  | other
deriving DecidableEq, Repr

/-- An item as handed to the checker; only its kind is inspected. -/
structure Item where
  kind : ItemKind
deriving DecidableEq, Repr

/-- Severity of an emitted diagnostic. -/
inductive Severity where
  | warning
  | error
deriving DecidableEq, Repr

/-- An emitted report: the lint it belongs to, its severity, the source
span it is anchored at, its primary message and its help text. -/
structure Diagnostic where
  lint : String
  severity : Severity
  span : Nat
  msg : String
  help : String
deriving DecidableEq, Repr

/-- The registered lint identifier. -/
def PARTIAL_PUB_FIELDS : String := "PARTIAL_PUB_FIELDS"

/-- Modelled from the spec: the diagnostic constructor (clippy_utils
span_lint_and_help, not under src/), "whose return value the host renders
as a warning-level diagnostic with the given message, span, and optional
help text". -/
def span_lint_and_help (lint : String) (sp : Nat) (m : String) (helpMsg : String) : Diagnostic :=
  { lint := lint, severity := .warning, span := sp, msg := m, help := helpMsg }

/-- The primary message used by the checker. -/
def msg : String := "mixed usage of pub and non-pub fields"

/-- The loop body of check_item: scan the fields after the first one and
emit at the first field whose classification disagrees with the baseline
all_pub, then return. -/
def scanFields (all_pub : Bool) : List FieldDef → Option Diagnostic
  | [] => none
  | field :: rest =>
    if !all_pub && field.vis.kind.is_pub then
      some (span_lint_and_help PARTIAL_PUB_FIELDS field.vis.span msg
        "consider using private field here")
    else if all_pub && !field.vis.kind.is_pub then
      some (span_lint_and_help PARTIAL_PUB_FIELDS field.vis.span msg
        "consider using public field here")
    else
      scanFields all_pub rest

/-- The checker (check_item): non-struct items are ignored, an empty struct
produces no diagnostic, and otherwise the first field's classification is
the baseline against which the remaining fields are scanned. -/
def check_item (item : Item) : Option Diagnostic :=
  match item.kind with
  | ItemKind.struct st =>
    match st.fields with
    | [] => none
    | first_field :: fields =>
      scanFields first_field.vis.kind.is_pub fields
  | _ => none

/-- Comparison definition following the spec's scan with the early return
removed: one diagnostic per mismatching field, in declaration order.  Used
to state that check_item reports exactly the first mismatch. -/
def scanFieldsAll (all_pub : Bool) : List FieldDef → List Diagnostic
  | [] => []
  | field :: rest =>
    if !all_pub && field.vis.kind.is_pub then
      span_lint_and_help PARTIAL_PUB_FIELDS field.vis.span msg
        "consider using private field here" :: scanFieldsAll all_pub rest
    else if all_pub && !field.vis.kind.is_pub then
      span_lint_and_help PARTIAL_PUB_FIELDS field.vis.span msg
        "consider using public field here" :: scanFieldsAll all_pub rest
    else
      scanFieldsAll all_pub rest

/-- Comparison definition: all mismatch diagnostics of an item, in
declaration order. -/
def check_item_all (item : Item) : List Diagnostic :=
  match item.kind with
  | ItemKind.struct st =>
    match st.fields with
    | [] => []
    | first_field :: fields =>
      scanFieldsAll first_field.vis.kind.is_pub fields
  | _ => []

theorem scanFields_true_eq_find (l : List FieldDef) :
    scanFields true l = (l.find? (fun g => !g.vis.kind.is_pub)).map
      (fun f => span_lint_and_help PARTIAL_PUB_FIELDS f.vis.span msg
        "consider using public field here") := by
  induction l with
  | nil => rfl
  | cons f rest ih =>
    by_cases h : f.vis.kind.is_pub
    · simp [scanFields, List.find?_cons, h, ih]
    · simp [scanFields, List.find?_cons, h]

theorem scanFields_false_eq_find (l : List FieldDef) :
    scanFields false l = (l.find? (fun g => g.vis.kind.is_pub)).map
      (fun f => span_lint_and_help PARTIAL_PUB_FIELDS f.vis.span msg
        "consider using private field here") := by
  induction l with
  | nil => rfl
  | cons f rest ih =>
    by_cases h : f.vis.kind.is_pub
    · simp [scanFields, List.find?_cons, h]
    · simp [scanFields, List.find?_cons, h, ih]

theorem scanFields_none_of_all (b : Bool) (l : List FieldDef)
    (h : ∀ f ∈ l, f.vis.kind.is_pub = b) : scanFields b l = none := by
  induction l with
  | nil => rfl
  | cons f rest ih =>
    have hf : f.vis.kind.is_pub = b := h f (List.mem_cons_self f rest)
    have hrest : ∀ g ∈ rest, g.vis.kind.is_pub = b := fun g hg =>
      h g (List.mem_cons_of_mem f hg)
    cases b <;> simp [scanFields, hf, ih hrest]

theorem scanFields_eq_head_all (b : Bool) (l : List FieldDef) :
    scanFields b l = (scanFieldsAll b l).head? := by
  induction l with
  | nil => rfl
  | cons f rest ih =>
    by_cases h : f.vis.kind.is_pub <;> cases b <;>
      simp [scanFields, scanFieldsAll, h, ih]

theorem scanFields_severity (b : Bool) (l : List FieldDef) (d : Diagnostic)
    (h : scanFields b l = some d) : d.severity = Severity.warning := by
  induction l with
  | nil => simp [scanFields] at h
  | cons f rest ih =>
    by_cases hf : f.vis.kind.is_pub <;> cases b <;>
      simp [scanFields, hf, span_lint_and_help] at h <;>
      first
        | exact ih h
        | (cases h; rfl)

/-- C1: for every struct declaration whose first field is public and that
has at least one later field that is not public, check_item returns exactly
one diagnostic, anchored at the visibility span of the first such
not-public field in declaration order (the first field itself excluded),
with help text "consider using public field here". -/
theorem C1_first_pub_later_nonpub (st : VariantData) (first_field f : FieldDef)
    (rest : List FieldDef)
    (hfields : st.fields = first_field :: rest)
    (hpub : first_field.vis.kind.is_pub = true)
    (hfind : rest.find? (fun g => !g.vis.kind.is_pub) = some f) :
    check_item { kind := ItemKind.struct st } =
      some (span_lint_and_help PARTIAL_PUB_FIELDS f.vis.span msg
        "consider using public field here") := by
  simp [check_item, hfields, hpub, scanFields_true_eq_find, hfind]

theorem C1_witness :
    check_item { kind := ItemKind.struct (VariantData.structData
      [⟨⟨.public, 0⟩⟩, ⟨⟨.public, 1⟩⟩, ⟨⟨.inherited, 2⟩⟩, ⟨⟨.inherited, 3⟩⟩]) } =
      some (span_lint_and_help PARTIAL_PUB_FIELDS 2 msg
        "consider using public field here") :=
  C1_first_pub_later_nonpub _ ⟨⟨.public, 0⟩⟩ ⟨⟨.inherited, 2⟩⟩
    [⟨⟨.public, 1⟩⟩, ⟨⟨.inherited, 2⟩⟩, ⟨⟨.inherited, 3⟩⟩] rfl rfl (by decide)

/-- C2: for every struct declaration whose first field is not public and
that has at least one later field that is public, check_item returns
exactly one diagnostic, anchored at the visibility span of the first such
public field encountered after the first field, with primary message
"mixed usage of pub and non-pub fields" and help text "consider using
private field here". -/
theorem C2_first_priv_later_pub (st : VariantData) (first_field f : FieldDef)
    (rest : List FieldDef)
    (hfields : st.fields = first_field :: rest)
    (hpriv : first_field.vis.kind.is_pub = false)
    (hfind : rest.find? (fun g => g.vis.kind.is_pub) = some f) :
    check_item { kind := ItemKind.struct st } =
      some { lint := PARTIAL_PUB_FIELDS, severity := .warning,
             span := f.vis.span, msg := "mixed usage of pub and non-pub fields",
             help := "consider using private field here" } := by
  simp [check_item, hfields, hpriv, scanFields_false_eq_find, hfind,
    span_lint_and_help, msg]

theorem C2_witness :
    check_item { kind := ItemKind.struct (VariantData.structData
      [⟨⟨.inherited, 0⟩⟩, ⟨⟨.public, 1⟩⟩, ⟨⟨.inherited, 2⟩⟩]) } =
      some { lint := PARTIAL_PUB_FIELDS, severity := .warning,
             span := 1, msg := "mixed usage of pub and non-pub fields",
             help := "consider using private field here" } :=
  C2_first_priv_later_pub _ ⟨⟨.inherited, 0⟩⟩ ⟨⟨.public, 1⟩⟩
    [⟨⟨.public, 1⟩⟩, ⟨⟨.inherited, 2⟩⟩] rfl rfl (by decide)

/-- C3: for every struct declaration in which all fields have identical
binary visibility classification (all public or all not public), including
every struct with exactly one field, check_item returns no diagnostic,
regardless of the number of fields. -/
theorem C3_uniform_no_diag (st : VariantData)
    (h : (∀ f ∈ st.fields, f.vis.kind.is_pub = true) ∨
         (∀ f ∈ st.fields, f.vis.kind.is_pub = false)) :
    check_item { kind := ItemKind.struct st } = none := by
  rcases hf : st.fields with _ | ⟨first_field, rest⟩
  · simp [check_item, hf]
  · have hall : ∀ g ∈ st.fields, g.vis.kind.is_pub = first_field.vis.kind.is_pub := by
      rcases h with h | h
      · intro g hg
        rw [h g hg, h first_field (hf ▸ List.mem_cons_self first_field rest)]
      · intro g hg
        rw [h g hg, h first_field (hf ▸ List.mem_cons_self first_field rest)]
    have hrest : ∀ g ∈ rest, g.vis.kind.is_pub = first_field.vis.kind.is_pub :=
      fun g hg => hall g (hf ▸ List.mem_cons_of_mem first_field hg)
    simp [check_item, hf, scanFields_none_of_all _ rest hrest]

theorem C3_witness :
    check_item { kind := ItemKind.struct (VariantData.structData
      [⟨⟨.inherited, 0⟩⟩, ⟨⟨.restricted, 1⟩⟩, ⟨⟨.inherited, 2⟩⟩]) } = none :=
  C3_uniform_no_diag _ (Or.inr (by decide))

/-- C4: for every invocation of check_item on a single item, at most one
diagnostic is emitted, and it is the first one of the full mismatch scan:
check_item equals the head of the list of all mismatch diagnostics taken in
declaration order, so the scan stops at the first field whose visibility
disagrees with the baseline and later mismatching fields add nothing. -/
theorem C4_first_mismatch_only (item : Item) :
    check_item item = (check_item_all item).head? := by
  rcases item with ⟨k⟩
  cases k with
  | struct st =>
    rcases hf : st.fields with _ | ⟨first_field, rest⟩ <;>
      simp [check_item, check_item_all, hf, scanFields_eq_head_all]
  | enum => rfl
  | union d => rfl
  | traitDecl => rfl
  | fn => rfl
  | other => rfl

/-- C5: for every struct declaration with zero fields, check_item returns
no diagnostic. -/
theorem C5_empty_no_diag (st : VariantData) (h : st.fields = []) :
    check_item { kind := ItemKind.struct st } = none := by
  simp [check_item, h]

theorem C5_witness :
    check_item { kind := ItemKind.struct (VariantData.structData []) } = none :=
  C5_empty_no_diag _ rfl

/-- C6: visibility is classified as a binary public / not-public
distinction in which any visibility other than fully public (for example
crate- or module-restricted visibility) counts as not public; consequently
a struct whose first field is fully public and whose second field is
restricted receives a mismatch diagnostic. -/
theorem C6_binary_visibility :
    (∀ vk : VisibilityKind, vk.is_pub = true ↔ vk = VisibilityKind.public) ∧
    check_item { kind := ItemKind.struct (VariantData.structData
      [⟨⟨.public, 10⟩⟩, ⟨⟨.restricted, 11⟩⟩]) } =
      some (span_lint_and_help PARTIAL_PUB_FIELDS 11 msg
        "consider using public field here") := by
  constructor
  · intro vk
    cases vk <;> simp [VisibilityKind.is_pub]
  · rfl

/-- C7: every diagnostic produced by check_item carries warning-level
severity, as fixed by the modelled diagnostic constructor the rule's
registration routes its reports through. -/
theorem C7_warning_severity (item : Item) (d : Diagnostic)
    (h : check_item item = some d) : d.severity = Severity.warning := by
  rcases item with ⟨k⟩
  cases k with
  | struct st =>
    rcases hf : st.fields with _ | ⟨first_field, rest⟩
    · simp [check_item, hf] at h
    · simp only [check_item, hf] at h
      exact scanFields_severity _ rest d h
  | enum => simp [check_item] at h
  | union d2 => simp [check_item] at h
  | traitDecl => simp [check_item] at h
  | fn => simp [check_item] at h
  | other => simp [check_item] at h

theorem C7_witness :
    (check_item { kind := ItemKind.struct (VariantData.structData
      [⟨⟨.public, 0⟩⟩, ⟨⟨.inherited, 1⟩⟩]) } =
      some (span_lint_and_help PARTIAL_PUB_FIELDS 1 msg
        "consider using public field here")) ∧
    (span_lint_and_help PARTIAL_PUB_FIELDS 1 msg
      "consider using public field here").severity = Severity.warning :=
  ⟨rfl, C7_warning_severity
    { kind := ItemKind.struct (VariantData.structData
        [⟨⟨.public, 0⟩⟩, ⟨⟨.inherited, 1⟩⟩]) } _ rfl⟩

/-- C8: check_item is a total function of its input: every invocation
completes and its whole effect is the returned value, which is either no
diagnostic or exactly one diagnostic. -/
theorem C8_total_outcomes (item : Item) :
    check_item item = none ∨ ∃ d, check_item item = some d := by
  cases h : check_item item with
  | none => exact Or.inl rfl
  | some d => exact Or.inr ⟨d, rfl⟩

/-- C9: for every item that is not a struct declaration, check_item returns
immediately with no diagnostic: the kind filtering happens in the checker
itself. -/
theorem C9_non_struct_no_diag (item : Item)
    (h : ∀ st : VariantData, item.kind ≠ ItemKind.struct st) :
    check_item item = none := by
  rcases item with ⟨k⟩
  cases k with
  | struct st => exact absurd rfl (h st)
  | enum => rfl
  | union d => rfl
  | traitDecl => rfl
  | fn => rfl
  | other => rfl

theorem C9_witness :
    check_item { kind := ItemKind.enum } = none :=
  C9_non_struct_no_diag { kind := ItemKind.enum }
    (fun _ hst => ItemKind.noConfusion hst)

/-- C10: tuple-like struct declarations with positional fields are subject
to the same check as structs with named fields: check_item on a tuple body
agrees with check_item on a named-field body with the same field list, and
a mixed tuple struct receives the same diagnostic. -/
theorem C10_tuple_same_check :
    (∀ fs : List FieldDef,
      check_item { kind := ItemKind.struct (VariantData.tupleData fs) } =
        check_item { kind := ItemKind.struct (VariantData.structData fs) }) ∧
    check_item { kind := ItemKind.struct (VariantData.tupleData
      [⟨⟨.inherited, 20⟩⟩, ⟨⟨.public, 21⟩⟩]) } =
      some (span_lint_and_help PARTIAL_PUB_FIELDS 21 msg
        "consider using private field here") := by
  constructor
  · intro fs
    rfl
  · rfl
